import Mathlib

/-
Shallow embedding of the secure RDMA connection broker
(src/tls_utils.c, src/secure_rdma_server.c, src/secure_rdma_client.c,
src/secure_rdma_server_scalable.c, src/secure_rdma_server_100.c).

Machine integers are modelled as Nat with explicit bounds; byte streams as
List Nat (each element < 256); external calls (OpenSSL, verbs) as explicit
oracle records.  Every definition mirrors the corresponding C function.
-/

namespace RdmaBroker

/-! ### Byte-order primitives (htonl / ntohl / htons / ntohs / htobe64 / be64toh) -/

/-- htonl: 32-bit value to 4 big-endian octets (network byte order). -/
def htonl (x : Nat) : List Nat :=
  [x / 2 ^ 24 % 256, x / 2 ^ 16 % 256, x / 2 ^ 8 % 256, x % 256]

/-- ntohl: fold 4 big-endian octets back into a 32-bit value. -/
def ntohl (l : List Nat) : Nat :=
  l.foldl (fun a b => a * 256 + b % 256) 0

/-- htons: 16-bit value to 2 big-endian octets. -/
def htons (x : Nat) : List Nat :=
  [x / 2 ^ 8 % 256, x % 256]

/-- ntohs: fold 2 big-endian octets back into a 16-bit value. -/
def ntohs (l : List Nat) : Nat :=
  l.foldl (fun a b => a * 256 + b % 256) 0

/-- htobe64: 64-bit value to 8 big-endian octets. -/
def htobe64 (x : Nat) : List Nat :=
  [x / 2 ^ 56 % 256, x / 2 ^ 48 % 256, x / 2 ^ 40 % 256, x / 2 ^ 32 % 256,
   x / 2 ^ 24 % 256, x / 2 ^ 16 % 256, x / 2 ^ 8 % 256, x % 256]

/-- be64toh: fold 8 big-endian octets back into a 64-bit value. -/
def be64toh (l : List Nat) : Nat :=
  l.foldl (fun a b => a * 256 + b % 256) 0

/-! ### Secure PSN source (tls_utils.c, generate_secure_psn) -/

/-- Which entropy source ended up filling the 32-bit draw. -/
inductive PsnSource where
  | opensslRand : PsnSource
  | devUrandom : PsnSource
  | timeRand : PsnSource
deriving DecidableEq, Repr

/-- Oracle for the three entropy sources of generate_secure_psn:
`rand_bytes` is `some draw` when OpenSSL RAND_bytes succeeds, `urandom` is
`some draw` when open("/dev/urandom") succeeds (the draw being whatever the
unchecked read leaves in psn), and `time_seed` is the rand() value after
srand(time(NULL) ^ getpid()). -/
structure EntropyEnv where
  rand_bytes : Option Nat
  urandom : Option Nat
  time_seed : Nat
deriving DecidableEq, Repr

/-- Result of generate_secure_psn: the returned PSN, the source used, and
whether any warning was printed on the way (the C function contains no
logging call in any branch, only a source comment). -/
structure PsnResult where
  psn : Nat
  source : PsnSource
  warned : Bool
deriving DecidableEq, Repr

/-- The raw 32-bit draw selected by the fallback chain of
generate_secure_psn (RAND_bytes, then /dev/urandom, then rand()). -/
def selected_draw (env : EntropyEnv) : Nat :=
  match env.rand_bytes with
  | some d => d % 2 ^ 32
  | none =>
    match env.urandom with
    | some d => d % 2 ^ 32
    | none => env.time_seed % 2 ^ 32

/-- generate_secure_psn (tls_utils.c:254-275): try RAND_bytes, fall back to
/dev/urandom, fall back to srand/rand; then
`psn = (psn & 0x00FFFFFF) | 0x00000001`.  The function always returns a
PSN (its C type is uint32_t with no error path) and never logs a warning. -/
def generate_secure_psn (env : EntropyEnv) : PsnResult :=
  match env.rand_bytes with
  | some d => { psn := (d % 2 ^ 32) &&& 0xFFFFFF ||| 1, source := .opensslRand, warned := false }
  | none =>
    match env.urandom with
    | some d => { psn := (d % 2 ^ 32) &&& 0xFFFFFF ||| 1, source := .devUrandom, warned := false }
    | none => { psn := (env.time_seed % 2 ^ 32) &&& 0xFFFFFF ||| 1, source := .timeRand, warned := false }

/-! ### PSN exchange over TLS (tls_utils.c, exchange_psn_client / exchange_psn_server) -/

/-- Observable outcome of one side of the PSN exchange.  `written` are the
octets pushed into the TLS stream, `local_psn` the value stored through the
local out-parameter, `remote` the value stored through the remote
out-parameter (`none` when the function returned -1 before writing it),
`ret` the C return value. -/
structure PsnExchangeRun where
  written : List Nat
  local_psn : Nat
  remote : Option Nat
  ret : Int
deriving DecidableEq, Repr

/-- exchange_psn_client (tls_utils.c:306-333): generate the local PSN, write
its 4 octets (htonl), then read 4 octets and ntohl them into remote_psn.
`input` is the byte stream available from the peer; a short read (fewer than
4 octets) returns -1 with remote_psn untouched, but the local PSN has
already been written to the stream. -/
def exchange_psn_client (env : EntropyEnv) (input : List Nat) : PsnExchangeRun :=
  let localPsn := (generate_secure_psn env).psn
  let out := htonl localPsn
  let rd := input.take 4
  if rd.length = 4 then
    { written := out, local_psn := localPsn, remote := some (ntohl rd), ret := 0 }
  else
    { written := out, local_psn := localPsn, remote := none, ret := -1 }

/-- exchange_psn_server (tls_utils.c:277-304): generate the local PSN and
htonl it into the record, then read the client's 4 octets, then write the
server's 4 octets.  On a short read the function returns -1 before writing
anything to the stream. -/
def exchange_psn_server (env : EntropyEnv) (input : List Nat) : PsnExchangeRun :=
  let localPsn := (generate_secure_psn env).psn
  let out := htonl localPsn
  let rd := input.take 4
  if rd.length = 4 then
    { written := out, local_psn := localPsn, remote := some (ntohl rd), ret := 0 }
  else
    { written := [], local_psn := localPsn, remote := none, ret := -1 }

/-! ### Endpoint descriptor codec (tls_utils.h struct rdma_conn_params,
tls_utils.c send_rdma_params / receive_rdma_params) -/

/-- struct rdma_conn_params (tls_utils.h:24-31). -/
structure rdma_conn_params where
  qp_num : Nat
  lid : Nat
  gid : List Nat
  psn : Nat
  rkey : Nat
  remote_addr : Nat
deriving DecidableEq, Repr

/-- Range conditions under which the struct fields are faithful C values. -/
def params_valid (p : rdma_conn_params) : Prop :=
  p.qp_num < 2 ^ 32 ∧ p.lid < 2 ^ 16 ∧ p.gid.length = 16 ∧
  p.psn < 2 ^ 32 ∧ p.rkey < 2 ^ 32 ∧ p.remote_addr < 2 ^ 64

instance (p : rdma_conn_params) : Decidable (params_valid p) := by
  unfold params_valid; infer_instance

/-- sizeof(struct rdma_conn_params) under the LP64 ABI: qp_num at offset 0,
lid at 4, gid at 6, two padding octets at 22-23 (uint32_t alignment), psn at
24, rkey at 28, remote_addr at 32, total 40. -/
def sizeof_rdma_conn_params : Nat := 40

/-- send_rdma_params (tls_utils.c:335-354): fill a second struct with the
htonl/htons/htobe64 images of the fields and SSL_write the whole struct.
`pad` stands for the two indeterminate padding octets at offsets 22-23 of
the stack struct (the struct is not memset before use). -/
def send_rdma_params (p : rdma_conn_params) (pad : List Nat) : List Nat :=
  htonl p.qp_num ++ htons p.lid ++ p.gid ++ pad ++
  htonl p.psn ++ htonl p.rkey ++ htobe64 p.remote_addr

/-- Field extraction of receive_rdma_params from a full 40-octet struct
image (tls_utils.c:366-372). -/
def decode_rdma_params (rd : List Nat) : rdma_conn_params :=
  { qp_num := ntohl (rd.take 4)
    lid := ntohs ((rd.drop 4).take 2)
    gid := (rd.drop 6).take 16
    psn := ntohl ((rd.drop 24).take 4)
    rkey := ntohl ((rd.drop 28).take 4)
    remote_addr := be64toh ((rd.drop 32).take 8) }

/-- receive_rdma_params (tls_utils.c:356-375): SSL_read
sizeof(struct rdma_conn_params) octets; if fewer arrive return -1 without
touching the caller's struct `old`, otherwise decode every field. -/
def receive_rdma_params (old : rdma_conn_params) (input : List Nat) :
    rdma_conn_params × Int :=
  let rd := input.take sizeof_rdma_conn_params
  if rd.length = sizeof_rdma_conn_params then (decode_rdma_params rd, 0)
  else (old, -1)

/-! ### Verbs constants (rdma_compat.h) -/

def IBV_ACCESS_LOCAL_WRITE : Nat := 1
def IBV_ACCESS_REMOTE_WRITE : Nat := 2
def IBV_ACCESS_REMOTE_READ : Nat := 4

def IBV_QP_STATE : Nat := 1
def IBV_QP_PKEY_INDEX : Nat := 2
def IBV_QP_PORT : Nat := 4
def IBV_QP_ACCESS_FLAGS : Nat := 8
def IBV_QP_AV : Nat := 16
def IBV_QP_PATH_MTU : Nat := 32
def IBV_QP_DEST_QPN : Nat := 64
def IBV_QP_RQ_PSN : Nat := 128
def IBV_QP_MAX_DEST_RD_ATOMIC : Nat := 256
def IBV_QP_MIN_RNR_TIMER : Nat := 512
def IBV_QP_SQ_PSN : Nat := 1024
def IBV_QP_TIMEOUT : Nat := 2048
def IBV_QP_RETRY_CNT : Nat := 4096
def IBV_QP_RNR_RETRY : Nat := 8192
def IBV_QP_MAX_QP_RD_ATOMIC : Nat := 16384

/-- QP states (rdma_compat.h:96-99). -/
def IBV_QPS_RESET : Nat := 0
def IBV_QPS_INIT : Nat := 1
def IBV_QPS_RTR : Nat := 2
def IBV_QPS_RTS : Nat := 3

def IBV_MTU_1024 : Nat := 3
def IBV_LINK_LAYER_ETHERNET : Nat := 1
def IBV_LINK_LAYER_INFINIBAND : Nat := 2

/-- struct ibv_qp_attr, restricted to the fields the bring-up machine
touches; memset(&attr, 0, ...) corresponds to `zero_qp_attr`. -/
structure ibv_qp_attr where
  qp_state : Nat
  port_num : Nat
  pkey_index : Nat
  qp_access_flags : Nat
  path_mtu : Nat
  dest_qp_num : Nat
  rq_psn : Nat
  max_dest_rd_atomic : Nat
  min_rnr_timer : Nat
  ah_is_global : Nat
  ah_dlid : Nat
  ah_sl : Nat
  ah_src_path_bits : Nat
  ah_port_num : Nat
  ah_grh_hop_limit : Nat
  ah_grh_dgid : List Nat
  ah_grh_sgid_index : Nat
  timeout : Nat
  retry_cnt : Nat
  rnr_retry : Nat
  sq_psn : Nat
  max_rd_atomic : Nat
deriving DecidableEq, Repr

def zero_qp_attr : ibv_qp_attr :=
  { qp_state := 0, port_num := 0, pkey_index := 0, qp_access_flags := 0,
    path_mtu := 0, dest_qp_num := 0, rq_psn := 0, max_dest_rd_atomic := 0,
    min_rnr_timer := 0, ah_is_global := 0, ah_dlid := 0, ah_sl := 0,
    ah_src_path_bits := 0, ah_port_num := 0, ah_grh_hop_limit := 0,
    ah_grh_dgid := [], ah_grh_sgid_index := 0, timeout := 0, retry_cnt := 0,
    rnr_retry := 0, sq_psn := 0, max_rd_atomic := 0 }

/-- One ibv_modify_qp call: the attribute block and the attribute mask. -/
structure ModifyCall where
  attr : ibv_qp_attr
  flags : Nat
deriving DecidableEq, Repr

/-! ### Per-connection bring-up machine (setup_qp_with_psn, both files) -/

/-- External-call oracle for one run of setup_qp_with_psn: results of the
port/GID queries, the TLS parameter exchange, and the three
ibv_modify_qp calls. -/
structure SetupEnv where
  query_port_ok : Bool
  port_lid : Nat
  link_layer : Nat
  query_gid_ok : Bool
  gid : List Nat
  send_ok : Bool
  recv_params : Option rdma_conn_params
  modify_init_ok : Bool
  modify_rtr_ok : Bool
  modify_rts_ok : Bool
deriving DecidableEq, Repr

/-- The per-connection values setup_qp_with_psn reads from the connection
record: the two TLS-negotiated PSNs, the live QP number, the recv MR rkey
and the recv buffer address. -/
structure ConnInfo where
  local_psn : Nat
  remote_psn : Nat
  qp_num : Nat
  recv_rkey : Nat
  recv_buffer_addr : Nat
deriving DecidableEq, Repr

/-- Observable trace of one setup_qp_with_psn run: the endpoint descriptor
sent over TLS, the descriptor received, the sequence of ibv_modify_qp
calls issued, and the C return value. -/
structure SetupTrace where
  sent_params : Option rdma_conn_params
  received : Option rdma_conn_params
  modifies : List ModifyCall
  ret : Int
deriving DecidableEq, Repr

/-- The INIT-transition attribute block shared verbatim by the client and
server setup (attr.qp_state = IBV_QPS_INIT; port, pkey_index, access). -/
def init_attr (portNum : Nat) : ibv_qp_attr :=
  { zero_qp_attr with
    qp_state := IBV_QPS_INIT
    port_num := portNum
    pkey_index := 0
    qp_access_flags := IBV_ACCESS_LOCAL_WRITE ||| IBV_ACCESS_REMOTE_READ ||| IBV_ACCESS_REMOTE_WRITE }

def init_flags : Nat :=
  IBV_QP_STATE ||| IBV_QP_PKEY_INDEX ||| IBV_QP_PORT ||| IBV_QP_ACCESS_FLAGS

/-- The RTR-transition attribute block: rq_psn is taken from the
connection's remote_psn, the destination QP/LID/GID from the received
endpoint descriptor. -/
def rtr_attr (conn : ConnInfo) (remote : rdma_conn_params)
    (linkLayer portNum : Nat) : ibv_qp_attr :=
  let base : ibv_qp_attr :=
    { zero_qp_attr with
      qp_state := IBV_QPS_RTR
      path_mtu := IBV_MTU_1024
      dest_qp_num := remote.qp_num
      rq_psn := conn.remote_psn
      max_dest_rd_atomic := 1
      min_rnr_timer := 12
      ah_is_global := 0
      ah_dlid := remote.lid
      ah_sl := 0
      ah_src_path_bits := 0
      ah_port_num := portNum }
  if linkLayer = IBV_LINK_LAYER_ETHERNET then
    { base with
      ah_is_global := 1
      ah_grh_hop_limit := 1
      ah_grh_dgid := remote.gid
      ah_grh_sgid_index := 0 }
  else base

def rtr_flags : Nat :=
  IBV_QP_STATE ||| IBV_QP_AV ||| IBV_QP_PATH_MTU ||| IBV_QP_DEST_QPN |||
  IBV_QP_RQ_PSN ||| IBV_QP_MAX_DEST_RD_ATOMIC ||| IBV_QP_MIN_RNR_TIMER

/-- The RTS-transition attribute block: sq_psn is taken from the
connection's local_psn. -/
def rts_attr (conn : ConnInfo) : ibv_qp_attr :=
  { zero_qp_attr with
    qp_state := IBV_QPS_RTS
    timeout := 14
    retry_cnt := 7
    rnr_retry := 7
    sq_psn := conn.local_psn
    max_rd_atomic := 1 }

def rts_flags : Nat :=
  IBV_QP_STATE ||| IBV_QP_TIMEOUT ||| IBV_QP_RETRY_CNT |||
  IBV_QP_RNR_RETRY ||| IBV_QP_SQ_PSN ||| IBV_QP_MAX_QP_RD_ATOMIC

/-- The local endpoint descriptor built by setup_qp_with_psn before the
exchange: live QP number, port-queried LID and GID, local PSN, recv MR
rkey, recv buffer address. -/
def local_params_of (env : SetupEnv) (conn : ConnInfo) : rdma_conn_params :=
  { qp_num := conn.qp_num, lid := env.port_lid, gid := env.gid,
    psn := conn.local_psn, rkey := conn.recv_rkey,
    remote_addr := conn.recv_buffer_addr }

/-- setup_qp_with_psn, server side (secure_rdma_server.c:116-247):
query port, build local params, query GID, SEND local params, RECEIVE
remote params, then modify the QP to INIT, to RTR with
rq_psn = remote_psn, and to RTS with sq_psn = local_psn; port_num is the
literal 1.  Any failing step returns -1 immediately. -/
def server_setup_qp_with_psn (env : SetupEnv) (conn : ConnInfo) : SetupTrace :=
  if !env.query_port_ok then
    { sent_params := none, received := none, modifies := [], ret := -1 }
  else if !env.query_gid_ok then
    { sent_params := none, received := none, modifies := [], ret := -1 }
  else
    let lp := local_params_of env conn
    if !env.send_ok then
      { sent_params := some lp, received := none, modifies := [], ret := -1 }
    else
      match env.recv_params with
      | none => { sent_params := some lp, received := none, modifies := [], ret := -1 }
      | some remote =>
        let mInit : ModifyCall := { attr := init_attr 1, flags := init_flags }
        if !env.modify_init_ok then
          { sent_params := some lp, received := some remote, modifies := [mInit], ret := -1 }
        else
          let mRtr : ModifyCall :=
            { attr := rtr_attr conn remote env.link_layer 1, flags := rtr_flags }
          if !env.modify_rtr_ok then
            { sent_params := some lp, received := some remote,
              modifies := [mInit, mRtr], ret := -1 }
          else
            let mRts : ModifyCall := { attr := rts_attr conn, flags := rts_flags }
            if !env.modify_rts_ok then
              { sent_params := some lp, received := some remote,
                modifies := [mInit, mRtr, mRts], ret := -1 }
            else
              { sent_params := some lp, received := some remote,
                modifies := [mInit, mRtr, mRts], ret := 0 }

/-- setup_qp_with_psn, client side (secure_rdma_client.c:89-207): the same
machine, but the endpoint exchange is RECEIVE first then SEND, and the
port number comes from cm_id->port_num. -/
def client_setup_qp_with_psn (env : SetupEnv) (portNum : Nat) (conn : ConnInfo) :
    SetupTrace :=
  if !env.query_port_ok then
    { sent_params := none, received := none, modifies := [], ret := -1 }
  else if !env.query_gid_ok then
    { sent_params := none, received := none, modifies := [], ret := -1 }
  else
    let lp := local_params_of env conn
    match env.recv_params with
    | none => { sent_params := none, received := none, modifies := [], ret := -1 }
    | some remote =>
      if !env.send_ok then
        { sent_params := some lp, received := some remote, modifies := [], ret := -1 }
      else
        let mInit : ModifyCall := { attr := init_attr portNum, flags := init_flags }
        if !env.modify_init_ok then
          { sent_params := some lp, received := some remote, modifies := [mInit], ret := -1 }
        else
          let mRtr : ModifyCall :=
            { attr := rtr_attr conn remote env.link_layer portNum, flags := rtr_flags }
          if !env.modify_rtr_ok then
            { sent_params := some lp, received := some remote,
              modifies := [mInit, mRtr], ret := -1 }
          else
            let mRts : ModifyCall := { attr := rts_attr conn, flags := rts_flags }
            if !env.modify_rts_ok then
              { sent_params := some lp, received := some remote,
                modifies := [mInit, mRtr, mRts], ret := -1 }
            else
              { sent_params := some lp, received := some remote,
                modifies := [mInit, mRtr, mRts], ret := 0 }

/-! ### Per-connection memory registration (secure_rdma_server.c,
init_rdma_resources and client_handler_thread) -/

def BUFFER_SIZE : Nat := 4096

/-- Record of one ibv_reg_mr call: the protection-domain handle it was
registered against, the buffer address and length, and the access flags. -/
structure ibv_mr_reg where
  pd : Nat
  addr : Nat
  length : Nat
  access : Nat
deriving DecidableEq, Repr

/-- The union of all three access flags ("full access set" of the spec). -/
def full_access_set : Nat :=
  IBV_ACCESS_LOCAL_WRITE ||| IBV_ACCESS_REMOTE_READ ||| IBV_ACCESS_REMOTE_WRITE

/-- init_rdma_resources (secure_rdma_server.c:88-113): register the send MR
with IBV_ACCESS_LOCAL_WRITE | IBV_ACCESS_REMOTE_READ and the recv MR with
IBV_ACCESS_LOCAL_WRITE | IBV_ACCESS_REMOTE_WRITE, both against client->pd. -/
def init_rdma_resources (pd sendAddr recvAddr : Nat) : ibv_mr_reg × ibv_mr_reg :=
  ({ pd := pd, addr := sendAddr, length := BUFFER_SIZE,
     access := IBV_ACCESS_LOCAL_WRITE ||| IBV_ACCESS_REMOTE_READ },
   { pd := pd, addr := recvAddr, length := BUFFER_SIZE,
     access := IBV_ACCESS_LOCAL_WRITE ||| IBV_ACCESS_REMOTE_WRITE })

/-- The RDMA resources one server handler thread creates for its client. -/
structure HandlerRdmaResources where
  pd : Nat
  send_mr : ibv_mr_reg
  recv_mr : ibv_mr_reg
deriving DecidableEq, Repr

/-- client_handler_thread resource creation (secure_rdma_server.c:367-459):
each handler opens the device and calls ibv_alloc_pd itself, so every
connection gets its own freshly allocated protection domain, and
init_rdma_resources then registers both MRs against that per-connection
PD.  `pd_counter` models the verbs allocator state: each ibv_alloc_pd
returns the next fresh PD handle. -/
def client_handler_alloc_resources (pd_counter sendAddr recvAddr : Nat) :
    HandlerRdmaResources × Nat :=
  let pd := pd_counter
  let mrs := init_rdma_resources pd sendAddr recvAddr
  ({ pd := pd, send_mr := mrs.1, recv_mr := mrs.2 }, pd_counter + 1)

/-- init_rdma_shared (secure_rdma_server_scalable.c:221-271): the scalable
server allocates a single PD shared by all clients. -/
def scalable_alloc_shared_pd (pd_counter : Nat) : Nat × Nat :=
  (pd_counter, pd_counter + 1)

/-- The scalable server's per-client path (handle_new_client,
secure_rdma_server_scalable.c:292-351) creates a QP and takes pool buffers
but never calls ibv_reg_mr: the list of MRs it registers is empty. -/
def scalable_registered_mrs : List ibv_mr_reg := []

/-! ### MAX_CLIENTS configuration (secure_rdma_server_scalable.c init_server,
secure_rdma_server_100.c) -/

/-- C isspace for the default locale. -/
def c_isspace (c : Char) : Bool :=
  c = ' ' || c = '\t' || c = '\n' || c = '\x0b' || c = '\x0c' || c = '\r'

/-- Digit accumulation loop of C atoi: consume leading decimal digits,
stop at the first non-digit. -/
def atoi_digits : List Char → Nat → Nat
  | c :: cs, acc =>
    if c.isDigit then atoi_digits cs (acc * 10 + (c.toNat - '0'.toNat)) else acc
  | [], acc => acc

/-- C atoi: skip leading whitespace, read an optional sign, then decimal
digits; returns 0 when no digits are present. -/
def atoi (s : String) : Int :=
  let cs := s.data.dropWhile c_isspace
  match cs with
  | '-' :: rest => -(atoi_digits rest 0 : Int)
  | '+' :: rest => (atoi_digits rest 0 : Int)
  | _ => (atoi_digits cs 0 : Int)

/-- MAX_CLIENTS_DEFAULT of the scalable server
(secure_rdma_server_scalable.c:21-25). -/
def MAX_CLIENTS_DEFAULT : Nat := 1000

/-- init_server max-clients selection
(secure_rdma_server_scalable.c:354-361): atoi of the MAX_CLIENTS
environment variable when set, otherwise MAX_CLIENTS_DEFAULT; no bound of
any kind is applied to the parsed value. -/
def scalable_max_clients (env : Option String) : Int :=
  match env with
  | some s => atoi s
  | none => (MAX_CLIENTS_DEFAULT : Int)

/-- MAX_CLIENTS of the simple server (secure_rdma_server_100.c:21): a
compile-time constant 100; that server never reads the environment. -/
def simple_server_max_clients : Nat := 100

/-- MAX_CLIENTS of the thread-per-client server (secure_rdma_server.c:21). -/
def server_MAX_CLIENTS : Nat := 10

/-! ### Client-slot table (secure_rdma_server.c, tls_listener_thread and
client_handler_thread cleanup) -/

/-- The slot contents for one admitted client: its id and the
per-connection counters the handler updates. -/
structure ClientRec where
  client_id : Nat
  messages_received : Nat
  bytes_received : Nat
deriving DecidableEq, Repr

/-- The slot-table portion of struct server_context: the clients array and
num_clients, both guarded by clients_mutex. -/
structure ServerState where
  clients : List (Option ClientRec)
  num_clients : Nat
deriving DecidableEq, Repr

/-- Server start: all slots empty, num_clients = 0. -/
def initialServerState (max : Nat) : ServerState :=
  { clients := List.replicate max none, num_clients := 0 }

/-- Number of occupied slots. -/
def occupied_count (st : ServerState) : Nat :=
  st.clients.countP fun o => o.isSome

/-- Admission step of tls_listener_thread (secure_rdma_server.c:524-554),
executed under clients_mutex: if num_clients >= max the TLS session is
closed and nothing else changes; otherwise the first free slot i receives
a fresh client record with client_id = i + 1 and num_clients is
incremented (when no free slot exists the C loop falls through leaving the
table and the count unchanged).  The returned Bool is true when the
connection was rejected and its TLS session closed. -/
def tls_admission (max : Nat) (st : ServerState) : ServerState × Bool :=
  if st.num_clients ≥ max then (st, true)
  else
    match st.clients.findIdx? fun o => o.isNone with
    | some i =>
      ({ clients := st.clients.set i
           (some { client_id := i + 1, messages_received := 0, bytes_received := 0 })
         num_clients := st.num_clients + 1 }, false)
    | none => (st, false)

/-- Handler cleanup (secure_rdma_server.c:489-497), under clients_mutex:
clear the client's slot and decrement num_clients; a slot that is already
empty leaves the state unchanged. -/
def release_slot (st : ServerState) (i : Nat) : ServerState :=
  match st.clients.get? i with
  | some (some _) =>
    { clients := st.clients.set i none, num_clients := st.num_clients - 1 }
  | _ => st

/-- A handler updating its own connection's counters (the per-connection
statistics of the echo loop). -/
def bump_counters (st : ServerState) (i bytes : Nat) : ServerState :=
  match st.clients.get? i with
  | some (some r) =>
    { clients := st.clients.set i (some { r with
        messages_received := r.messages_received + 1
        bytes_received := r.bytes_received + bytes })
      num_clients := st.num_clients }
  | _ => st

/-- States of the slot table reachable from server start by admissions,
releases and counter updates (each atomic under clients_mutex). -/
inductive Reachable (max : Nat) : ServerState → Prop where
  | init : Reachable max (initialServerState max)
  | admission {st : ServerState} : Reachable max st → Reachable max (tls_admission max st).1
  | release {st : ServerState} (i : Nat) :
      Reachable max st → Reachable max (release_slot st i)
  | bump {st : ServerState} (i bytes : Nat) :
      Reachable max st → Reachable max (bump_counters st i bytes)

/-! ### Concrete inputs used by witnesses -/

/-- A concrete peer endpoint descriptor. -/
def demo_remote_params : rdma_conn_params :=
  { qp_num := 42, lid := 3, gid := List.replicate 16 1, psn := 0xABCDE1,
    rkey := 77, remote_addr := 0x1000 }

/-- A concrete all-success oracle for setup_qp_with_psn. -/
def demo_setup_env : SetupEnv :=
  { query_port_ok := true, port_lid := 7, link_layer := IBV_LINK_LAYER_INFINIBAND,
    query_gid_ok := true, gid := List.replicate 16 0, send_ok := true,
    recv_params := some demo_remote_params, modify_init_ok := true,
    modify_rtr_ok := true, modify_rts_ok := true }

/-- A concrete connection record. -/
def demo_conn : ConnInfo :=
  { local_psn := 0x123457, remote_psn := 0xABCDE1, qp_num := 9,
    recv_rkey := 55, recv_buffer_addr := 0x2000 }

/-- The slot-table invariant maintained by the admission/release/update
steps of secure_rdma_server.c. -/
def ServerInv (max : Nat) (st : ServerState) : Prop :=
  st.clients.length = max ∧ st.num_clients = occupied_count st ∧
  occupied_count st ≤ max

/-! ## Theorems -/

/-! ### Byte-order round trips -/

theorem ntohl_htonl (x : Nat) (h : x < 2 ^ 32) : ntohl (htonl x) = x := by
  simp only [ntohl, htonl, List.foldl]
  omega

theorem ntohs_htons (x : Nat) (h : x < 2 ^ 16) : ntohs (htons x) = x := by
  simp only [ntohs, htons, List.foldl]
  omega

set_option maxHeartbeats 2000000 in
theorem be64toh_htobe64 (x : Nat) (h : x < 2 ^ 64) : be64toh (htobe64 x) = x := by
  simp only [be64toh, htobe64, List.foldl]
  omega

theorem htonl_length (x : Nat) : (htonl x).length = 4 := rfl

theorem htons_length (x : Nat) : (htons x).length = 2 := rfl

theorem htobe64_length (x : Nat) : (htobe64 x).length = 8 := rfl

theorem take_four_htonl (x : Nat) : (htonl x).take 4 = htonl x :=
  List.take_of_length_le (le_of_eq (htonl_length x))

theorem exchange_psn_server_local_eq (env : EntropyEnv) (input : List Nat) :
    (exchange_psn_server env input).local_psn = (generate_secure_psn env).psn := by
  simp only [exchange_psn_server]
  split <;> rfl

/-! ### PSN generator lemmas -/

theorem generate_psn_eq_mask (env : EntropyEnv) :
    (generate_secure_psn env).psn = (selected_draw env &&& 0xFFFFFF) ||| 1 := by
  rcases env with ⟨rb, ur, ts⟩
  cases rb <;> cases ur <;> rfl

theorem psn_mask_lt (d : Nat) : (d &&& 0xFFFFFF) ||| 1 < 2 ^ 24 := by
  have h1 : d &&& 0xFFFFFF ≤ 0xFFFFFF := Nat.and_le_right
  have h2 : d &&& 0xFFFFFF < 2 ^ 24 := lt_of_le_of_lt h1 (by norm_num)
  exact Nat.or_lt_two_pow h2 (by norm_num)

theorem psn_mask_odd (d : Nat) : ((d &&& 0xFFFFFF) ||| 1).testBit 0 = true := by
  simp [Nat.testBit_or]

theorem psn_mask_ne_zero (d : Nat) : (d &&& 0xFFFFFF) ||| 1 ≠ 0 := by
  intro h
  have := congrArg (fun n => n.testBit 0) h
  simp [Nat.testBit_or] at this

/-- Claim C5: every PSN the generator returns has bit 0 set and bits 24-31
clear; it equals the low 24 bits of the selected 32-bit draw with the low
bit forced to 1, hence is nonzero and at most 0xFFFFFF. -/
theorem psn_generator_output_range (env : EntropyEnv) :
    (generate_secure_psn env).psn.testBit 0 = true ∧
    (∀ i, 24 ≤ i → (generate_secure_psn env).psn.testBit i = false) ∧
    (generate_secure_psn env).psn = (selected_draw env &&& 0xFFFFFF) ||| 1 ∧
    (generate_secure_psn env).psn ≠ 0 ∧
    (generate_secure_psn env).psn ≤ 0xFFFFFF := by
  have hm := generate_psn_eq_mask env
  have hlt : (generate_secure_psn env).psn < 2 ^ 24 := hm ▸ psn_mask_lt _
  refine ⟨hm ▸ psn_mask_odd _, ?_, hm, hm ▸ psn_mask_ne_zero _, ?_⟩
  · intro i hi
    exact Nat.testBit_eq_false_of_lt
      (lt_of_lt_of_le hlt (Nat.pow_le_pow_right (by norm_num) hi))
  · omega

/-- Witness for C5 at a concrete entropy oracle. -/
theorem psn_generator_output_range_witness :
    (generate_secure_psn ⟨some 0xDEADBEEF, none, 0⟩).psn.testBit 0 = true ∧
    (generate_secure_psn ⟨some 0xDEADBEEF, none, 0⟩).psn.testBit 24 = false ∧
    (generate_secure_psn ⟨some 0xDEADBEEF, none, 0⟩).psn ≠ 0 ∧
    (generate_secure_psn ⟨some 0xDEADBEEF, none, 0⟩).psn ≤ 0xFFFFFF := by
  have h := psn_generator_output_range ⟨some 0xDEADBEEF, none, 0⟩
  exact ⟨h.1, h.2.1 24 (by norm_num), h.2.2.2.1, h.2.2.2.2⟩

/-- Claim C6 counterexample: when both RAND_bytes and /dev/urandom fail,
generate_secure_psn uses the time-seeded rand() yet logs no warning
(the C function contains no logging call), refuting "while logging a
warning in that case". -/
theorem psn_generator_no_warning :
    (generate_secure_psn ⟨none, none, 12345⟩).source = PsnSource.timeRand ∧
    (generate_secure_psn ⟨none, none, 12345⟩).warned = false := by
  decide

/-- Claim C6 (amended): the generator draws from OpenSSL RAND_bytes, falls
back to /dev/urandom when that fails, and uses the time-seeded rand() as
last resort without logging any warning; it always returns a PSN (uint32_t
return, no failure path). -/
theorem psn_generator_fallback_order (env : EntropyEnv) :
    ((generate_secure_psn env).source = PsnSource.opensslRand ↔ env.rand_bytes.isSome) ∧
    ((generate_secure_psn env).source = PsnSource.devUrandom ↔
      env.rand_bytes = none ∧ env.urandom.isSome) ∧
    ((generate_secure_psn env).source = PsnSource.timeRand ↔
      env.rand_bytes = none ∧ env.urandom = none) ∧
    (generate_secure_psn env).warned = false ∧
    (generate_secure_psn env).psn = (selected_draw env &&& 0xFFFFFF) ||| 1 := by
  rcases env with ⟨rb, ur, ts⟩
  cases rb <;> cases ur <;> simp [generate_secure_psn, selected_draw]

/-- Claim C10: the server's PSN exchange draws and encodes its PSN before
reading anything from the client, so with the same entropy oracle the
server's local PSN is the same for every client-supplied input. -/
theorem server_psn_independent_of_client (env : EntropyEnv) (in1 in2 : List Nat) :
    (exchange_psn_server env in1).local_psn = (exchange_psn_server env in2).local_psn ∧
    (exchange_psn_server env in1).local_psn = (generate_secure_psn env).psn := by
  simp [exchange_psn_server_local_eq]

/-- Claim C4: the client writes its 4 big-endian PSN octets then reads,
the server reads 4 octets then writes its own 4; wiring the two runs
together, each side decodes exactly the PSN the other side encoded. -/
theorem psn_exchange_octet_exact (envC envS : EntropyEnv) :
    (exchange_psn_client envC []).written = htonl (generate_secure_psn envC).psn ∧
    (exchange_psn_client envC []).written.length = 4 ∧
    (exchange_psn_server envS (exchange_psn_client envC []).written).written =
      htonl (generate_secure_psn envS).psn ∧
    (exchange_psn_server envS (exchange_psn_client envC []).written).written.length = 4 ∧
    (exchange_psn_server envS (exchange_psn_client envC []).written).remote =
      some (generate_secure_psn envC).psn ∧
    (exchange_psn_client envC
        (exchange_psn_server envS (exchange_psn_client envC []).written).written).remote =
      some (generate_secure_psn envS).psn ∧
    (exchange_psn_server envS (exchange_psn_client envC []).written).ret = 0 ∧
    (exchange_psn_client envC
        (exchange_psn_server envS (exchange_psn_client envC []).written).written).ret = 0 := by
  have hC : (generate_secure_psn envC).psn < 2 ^ 32 :=
    lt_trans (generate_psn_eq_mask envC ▸ psn_mask_lt _) (by norm_num)
  have hS : (generate_secure_psn envS).psn < 2 ^ 32 :=
    lt_trans (generate_psn_eq_mask envS ▸ psn_mask_lt _) (by norm_num)
  simp [exchange_psn_client, exchange_psn_server, take_four_htonl, htonl_length,
    ntohl_htonl _ hC, ntohl_htonl _ hS]

/-- Claim C7 counterexample: with MAX_CLIENTS=50000 the scalable server
accepts 50000 verbatim; no clamp to 10000 exists in init_server. -/
theorem max_clients_unclamped :
    scalable_max_clients (some "50000") = 50000 ∧
    ¬ scalable_max_clients (some "50000") ≤ 10000 := by
  constructor
  · rfl
  · decide

/-- Claim C7 (amended): the scalable server takes atoi(MAX_CLIENTS) with
default 1000 when unset and applies no upper bound; the simple server uses
a fixed compile-time maximum of 100 and never reads the environment
variable. -/
theorem max_clients_configuration (s : String) :
    scalable_max_clients (some s) = atoi s ∧
    scalable_max_clients none = 1000 ∧
    scalable_max_clients (some "50000") = 50000 ∧
    scalable_max_clients (some "12345") = 12345 ∧
    simple_server_max_clients = 100 ∧
    server_MAX_CLIENTS = 10 := by
  refine ⟨rfl, rfl, rfl, rfl, rfl, rfl⟩

/-! ### Endpoint descriptor codec lemmas -/

theorem send_rdma_params_length (p : rdma_conn_params) (pad : List Nat)
    (hg : p.gid.length = 16) (hp : pad.length = 2) :
    (send_rdma_params p pad).length = sizeof_rdma_conn_params := by
  simp [send_rdma_params, sizeof_rdma_conn_params, htonl, htons, htobe64, hg, hp]

theorem decode_send_roundtrip (p : rdma_conn_params) (pad : List Nat)
    (hv : params_valid p) (hp : pad.length = 2) :
    decode_rdma_params (send_rdma_params p pad) = p := by
  obtain ⟨h1, h2, h3, h4, h5, h6⟩ := hv
  rcases p with ⟨q, lid, gid, psn, rkey, addr⟩
  simp only at h1 h2 h3 h4 h5 h6
  set enc := send_rdma_params ⟨q, lid, gid, psn, rkey, addr⟩ pad with henc
  have hassoc : enc = htonl q ++ (htons lid ++ (gid ++ (pad ++
      (htonl psn ++ (htonl rkey ++ htobe64 addr))))) := by
    rw [henc]; simp [send_rdma_params, List.append_assoc]
  have hq : enc.take 4 = htonl q := by
    rw [hassoc]; exact List.take_left' (htonl_length q)
  have hd4 : enc.drop 4 = htons lid ++ (gid ++ (pad ++
      (htonl psn ++ (htonl rkey ++ htobe64 addr)))) := by
    rw [hassoc]; exact List.drop_left' (htonl_length q)
  have hlid : (enc.drop 4).take 2 = htons lid := by
    rw [hd4]; exact List.take_left' (htons_length lid)
  have hd6 : enc.drop 6 = gid ++ (pad ++ (htonl psn ++ (htonl rkey ++ htobe64 addr))) := by
    have hsplit : (enc.drop 4).drop 2 = enc.drop 6 := by
      rw [List.drop_drop]
    rw [← hsplit, hd4]; exact List.drop_left' (htons_length lid)
  have hgid : (enc.drop 6).take 16 = gid := by
    rw [hd6]; exact List.take_left' h3
  have hd22 : enc.drop 22 = pad ++ (htonl psn ++ (htonl rkey ++ htobe64 addr)) := by
    have hsplit : (enc.drop 6).drop 16 = enc.drop 22 := by
      rw [List.drop_drop]
    rw [← hsplit, hd6]; exact List.drop_left' h3
  have hd24 : enc.drop 24 = htonl psn ++ (htonl rkey ++ htobe64 addr) := by
    have hsplit : (enc.drop 22).drop 2 = enc.drop 24 := by
      rw [List.drop_drop]
    rw [← hsplit, hd22]; exact List.drop_left' hp
  have hpsn : (enc.drop 24).take 4 = htonl psn := by
    rw [hd24]; exact List.take_left' (htonl_length psn)
  have hd28 : enc.drop 28 = htonl rkey ++ htobe64 addr := by
    have hsplit : (enc.drop 24).drop 4 = enc.drop 28 := by
      rw [List.drop_drop]
    rw [← hsplit, hd24]; exact List.drop_left' (htonl_length psn)
  have hrkey : (enc.drop 28).take 4 = htonl rkey := by
    rw [hd28]; exact List.take_left' (htonl_length rkey)
  have hd32 : enc.drop 32 = htobe64 addr := by
    have hsplit : (enc.drop 28).drop 4 = enc.drop 32 := by
      rw [List.drop_drop]
    rw [← hsplit, hd28]; exact List.drop_left' (htonl_length rkey)
  have haddr : (enc.drop 32).take 8 = htobe64 addr := by
    rw [hd32]; exact List.take_of_length_le (le_of_eq (htobe64_length addr))
  simp only [decode_rdma_params, hq, hlid, hgid, hpsn, hrkey, haddr,
    ntohl_htonl _ h1, ntohs_htons _ h2, ntohl_htonl _ h4, ntohl_htonl _ h5,
    be64toh_htobe64 _ h6]

theorem receive_send_roundtrip (old p : rdma_conn_params) (pad extra : List Nat)
    (hv : params_valid p) (hp : pad.length = 2) :
    receive_rdma_params old (send_rdma_params p pad ++ extra) = (p, 0) := by
  have hlen : (send_rdma_params p pad).length = sizeof_rdma_conn_params :=
    send_rdma_params_length p pad hv.2.2.1 hp
  rw [receive_rdma_params, List.take_left' hlen, if_pos hlen,
    decode_send_roundtrip p pad hv hp]

/-- Claim C2 counterexample: the wire image of the endpoint descriptor at a
concrete input is sizeof(struct rdma_conn_params) = 40 octets (38 octets
of fields plus 2 alignment-padding octets after gid), not 34. -/
theorem endpoint_wire_not_34_octets :
    (send_rdma_params demo_remote_params [0, 0]).length = 40 ∧
    (send_rdma_params demo_remote_params [0, 0]).length ≠ 34 := by
  decide

/-- Claim C2 (amended): the descriptor travels as the 40-octet in-memory
struct image, fields in order qp_num (4), lid (2), gid (16), two padding
octets, psn (4), rkey (4), remote_addr (8), multi-octet fields in network
byte order, and the reader consumes exactly those 40 octets and recovers
every field. -/
theorem endpoint_descriptor_wire_format (old p : rdma_conn_params)
    (pad extra : List Nat) (hv : params_valid p) (hp : pad.length = 2) :
    send_rdma_params p pad =
      htonl p.qp_num ++ htons p.lid ++ p.gid ++ pad ++ htonl p.psn ++
        htonl p.rkey ++ htobe64 p.remote_addr ∧
    (send_rdma_params p pad).length = sizeof_rdma_conn_params ∧
    sizeof_rdma_conn_params = 40 ∧
    receive_rdma_params old (send_rdma_params p pad ++ extra) = (p, 0) := by
  exact ⟨rfl, send_rdma_params_length p pad hv.2.2.1 hp, rfl,
    receive_send_roundtrip old p pad extra hv hp⟩

/-- Witness for the amended C2 at concrete inputs. -/
theorem endpoint_descriptor_wire_format_witness :
    params_valid demo_remote_params ∧
    (send_rdma_params demo_remote_params [7, 9]).length = sizeof_rdma_conn_params ∧
    receive_rdma_params demo_remote_params
      (send_rdma_params demo_remote_params [7, 9] ++ [1, 2, 3]) =
      (demo_remote_params, 0) := by
  have h := endpoint_descriptor_wire_format demo_remote_params demo_remote_params
    [7, 9] [1, 2, 3] (by decide) (by decide)
  exact ⟨by decide, h.2.1, h.2.2.2⟩

/-- Claim C3 counterexample: in secure_rdma_server.c the send MR is
registered with {local-write, remote-read} and the recv MR with
{local-write, remote-write} (neither is the full access set), and two
successive handler threads obtain distinct protection domains, refuting
registration of both MRs against a single shared PD with full access. -/
theorem mr_access_and_pd_counterexample :
    (client_handler_alloc_resources 0 4096 8192).1.send_mr.access ≠ full_access_set ∧
    (client_handler_alloc_resources 0 4096 8192).1.recv_mr.access ≠ full_access_set ∧
    (client_handler_alloc_resources 0 4096 8192).1.pd ≠
      (client_handler_alloc_resources
        (client_handler_alloc_resources 0 4096 8192).2 4096 8192).1.pd := by
  decide

/-- Claim C3 (amended): each handler in secure_rdma_server.c registers both
MRs against its own per-connection PD (fresh from ibv_alloc_pd), the send
MR with access {local-write, remote-read} and the recv MR with
{local-write, remote-write}; handlers with distinct allocator states get
distinct PDs, and the scalable server - the one that does allocate a
single shared PD - registers no MRs at all. -/
theorem mr_registration_actual (pdc pdc2 sa ra sa2 ra2 : Nat) (hne : pdc ≠ pdc2) :
    ((client_handler_alloc_resources pdc sa ra).1.send_mr.pd =
      (client_handler_alloc_resources pdc sa ra).1.pd) ∧
    ((client_handler_alloc_resources pdc sa ra).1.recv_mr.pd =
      (client_handler_alloc_resources pdc sa ra).1.pd) ∧
    (client_handler_alloc_resources pdc sa ra).1.send_mr.access =
      (IBV_ACCESS_LOCAL_WRITE ||| IBV_ACCESS_REMOTE_READ) ∧
    (client_handler_alloc_resources pdc sa ra).1.recv_mr.access =
      (IBV_ACCESS_LOCAL_WRITE ||| IBV_ACCESS_REMOTE_WRITE) ∧
    (client_handler_alloc_resources pdc sa ra).2 = pdc + 1 ∧
    (client_handler_alloc_resources pdc sa ra).1.pd ≠
      (client_handler_alloc_resources pdc2 sa2 ra2).1.pd ∧
    scalable_registered_mrs = [] := by
  refine ⟨rfl, rfl, rfl, rfl, rfl, ?_, rfl⟩
  simpa [client_handler_alloc_resources, init_rdma_resources] using hne

/-- Witness for the amended C3 at concrete allocator states. -/
theorem mr_registration_actual_witness :
    (client_handler_alloc_resources 0 100 200).1.send_mr.access =
      (IBV_ACCESS_LOCAL_WRITE ||| IBV_ACCESS_REMOTE_READ) ∧
    (client_handler_alloc_resources 0 100 200).1.recv_mr.access =
      (IBV_ACCESS_LOCAL_WRITE ||| IBV_ACCESS_REMOTE_WRITE) ∧
    (client_handler_alloc_resources 0 100 200).1.pd ≠
      (client_handler_alloc_resources 1 300 400).1.pd := by
  have h := mr_registration_actual 0 1 100 200 300 400 (by decide)
  exact ⟨h.2.2.1, h.2.2.2.1, h.2.2.2.2.2.1⟩

/-- Claim C8: a control-plane read that delivers fewer octets than the
record size makes the decoder return -1 with the caller's output struct
left completely unmodified (endpoint-descriptor case) and the remote-PSN
out-parameter unwritten (PSN-word case, where the server also writes
nothing back), and the calling setup_qp_with_psn aborts with -1 before
issuing any QP state transition. -/
theorem short_read_protocol_error (old : rdma_conn_params) (input : List Nat)
    (hin : input.length < sizeof_rdma_conn_params)
    (penv : EntropyEnv) (pin : List Nat) (hpin : pin.length < 4)
    (env : SetupEnv) (conn : ConnInfo) (hrecv : env.recv_params = none) :
    receive_rdma_params old input = (old, -1) ∧
    (exchange_psn_server penv pin).remote = none ∧
    (exchange_psn_server penv pin).ret = -1 ∧
    (exchange_psn_server penv pin).written = [] ∧
    (server_setup_qp_with_psn env conn).ret = -1 ∧
    (server_setup_qp_with_psn env conn).modifies = [] := by
  have hne : (input.take sizeof_rdma_conn_params).length ≠ sizeof_rdma_conn_params := by
    rw [List.length_take]
    omega
  have hpne : (pin.take 4).length ≠ 4 := by
    rw [List.length_take]
    omega
  refine ⟨?_, ?_, ?_, ?_, ?_, ?_⟩
  · rw [receive_rdma_params, if_neg hne]
  · simp only [exchange_psn_server]
    rw [if_neg hpne]
  · simp only [exchange_psn_server]
    rw [if_neg hpne]
  · simp only [exchange_psn_server]
    rw [if_neg hpne]
  · rcases env with ⟨qp, lid, ll, gok, gid, sok, rp, m1, m2, m3⟩
    simp only at hrecv
    subst hrecv
    cases qp <;> cases gok <;> cases sok <;> simp [server_setup_qp_with_psn]
  · rcases env with ⟨qp, lid, ll, gok, gid, sok, rp, m1, m2, m3⟩
    simp only at hrecv
    subst hrecv
    cases qp <;> cases gok <;> cases sok <;> simp [server_setup_qp_with_psn]

/-- Witness for C8 at concrete short inputs. -/
theorem short_read_protocol_error_witness :
    ([1, 2, 3] : List Nat).length < sizeof_rdma_conn_params ∧
    receive_rdma_params demo_remote_params [1, 2, 3] = (demo_remote_params, -1) ∧
    (exchange_psn_server ⟨some 5, none, 0⟩ [9]).remote = none ∧
    (server_setup_qp_with_psn { demo_setup_env with recv_params := none }
      demo_conn).modifies = [] := by
  have h := short_read_protocol_error demo_remote_params [1, 2, 3] (by decide)
    ⟨some 5, none, 0⟩ [9] (by decide)
    { demo_setup_env with recv_params := none } demo_conn (by decide)
  exact ⟨by decide, h.1, h.2.1, h.2.2.2.2.2⟩

/-! ### Bring-up machine lemmas -/

theorem rtr_attr_rq_psn (conn : ConnInfo) (remote : rdma_conn_params) (ll pn : Nat) :
    (rtr_attr conn remote ll pn).rq_psn = conn.remote_psn := by
  unfold rtr_attr
  split <;> rfl

theorem rtr_attr_state (conn : ConnInfo) (remote : rdma_conn_params) (ll pn : Nat) :
    (rtr_attr conn remote ll pn).qp_state = IBV_QPS_RTR := by
  unfold rtr_attr
  split <;> rfl

/-- On success the server's setup_qp_with_psn has issued exactly the
INIT, RTR and RTS transitions, in that order, with the received
descriptor as the remote side. -/
theorem server_setup_success_modifies (env : SetupEnv) (conn : ConnInfo)
    (h : (server_setup_qp_with_psn env conn).ret = 0) :
    ∃ remote, env.recv_params = some remote ∧
      (server_setup_qp_with_psn env conn).modifies =
        [{ attr := init_attr 1, flags := init_flags },
         { attr := rtr_attr conn remote env.link_layer 1, flags := rtr_flags },
         { attr := rts_attr conn, flags := rts_flags }] := by
  rcases env with ⟨qp, lid, ll, gok, gid, sok, rp, m1, m2, m3⟩
  cases qp <;> cases gok <;> cases sok <;> cases m1 <;> cases m2 <;> cases m3 <;>
    cases rp <;> simp_all [server_setup_qp_with_psn]

/-- On success the client's setup_qp_with_psn has issued exactly the
INIT, RTR and RTS transitions with its cm_id port number. -/
theorem client_setup_success_modifies (env : SetupEnv) (pn : Nat) (conn : ConnInfo)
    (h : (client_setup_qp_with_psn env pn conn).ret = 0) :
    ∃ remote, env.recv_params = some remote ∧
      (client_setup_qp_with_psn env pn conn).modifies =
        [{ attr := init_attr pn, flags := init_flags },
         { attr := rtr_attr conn remote env.link_layer pn, flags := rtr_flags },
         { attr := rts_attr conn, flags := rts_flags }] := by
  rcases env with ⟨qp, lid, ll, gok, gid, sok, rp, m1, m2, m3⟩
  cases qp <;> cases gok <;> cases sok <;> cases m1 <;> cases m2 <;> cases m3 <;>
    cases rp <;> simp_all [client_setup_qp_with_psn]

/-- PSN discipline of the three-transition list common to both sides:
every call whose mask includes IBV_QP_RQ_PSN carries remote_psn, every
call whose mask includes IBV_QP_SQ_PSN carries local_psn, and the RTR/RTS
calls with those mask bits are present. -/
theorem modifies_list_psn_spec (conn : ConnInfo) (remote : rdma_conn_params) (ll pn : Nat) :
    (∀ m ∈ [ModifyCall.mk (init_attr pn) init_flags,
            ModifyCall.mk (rtr_attr conn remote ll pn) rtr_flags,
            ModifyCall.mk (rts_attr conn) rts_flags],
       (m.flags &&& IBV_QP_RQ_PSN ≠ 0 → m.attr.rq_psn = conn.remote_psn) ∧
       (m.flags &&& IBV_QP_SQ_PSN ≠ 0 → m.attr.sq_psn = conn.local_psn)) ∧
    (∃ m ∈ [ModifyCall.mk (init_attr pn) init_flags,
            ModifyCall.mk (rtr_attr conn remote ll pn) rtr_flags,
            ModifyCall.mk (rts_attr conn) rts_flags],
       m.attr.qp_state = IBV_QPS_RTR ∧ m.flags &&& IBV_QP_RQ_PSN ≠ 0 ∧
       m.attr.rq_psn = conn.remote_psn) ∧
    (∃ m ∈ [ModifyCall.mk (init_attr pn) init_flags,
            ModifyCall.mk (rtr_attr conn remote ll pn) rtr_flags,
            ModifyCall.mk (rts_attr conn) rts_flags],
       m.attr.qp_state = IBV_QPS_RTS ∧ m.flags &&& IBV_QP_SQ_PSN ≠ 0 ∧
       m.attr.sq_psn = conn.local_psn) := by
  refine ⟨?_, ?_, ?_⟩
  · intro m hm
    simp only [List.mem_cons, List.not_mem_nil, or_false] at hm
    rcases hm with rfl | rfl | rfl
    · exact ⟨fun h => absurd (by decide : init_flags &&& IBV_QP_RQ_PSN = 0) h,
        fun h => absurd (by decide : init_flags &&& IBV_QP_SQ_PSN = 0) h⟩
    · exact ⟨fun _ => rtr_attr_rq_psn conn remote ll pn,
        fun h => absurd (by decide : rtr_flags &&& IBV_QP_SQ_PSN = 0) h⟩
    · exact ⟨fun h => absurd (by decide : rts_flags &&& IBV_QP_RQ_PSN = 0) h,
        fun _ => rfl⟩
  · exact ⟨ModifyCall.mk (rtr_attr conn remote ll pn) rtr_flags, by simp,
      rtr_attr_state conn remote ll pn,
      (by decide : rtr_flags &&& IBV_QP_RQ_PSN ≠ 0),
      rtr_attr_rq_psn conn remote ll pn⟩
  · exact ⟨ModifyCall.mk (rts_attr conn) rts_flags, by simp, rfl,
      (by decide : rts_flags &&& IBV_QP_SQ_PSN ≠ 0), rfl⟩

/-- Claim C1: for every successful bring-up, on the server and on the
client alike, the modify-to-RTR call carries rq_psn = remote_psn (the PSN
received from the peer), the modify-to-RTS call carries
sq_psn = local_psn (the locally generated PSN), and no modify call with
the RQ_PSN mask bit ever carries anything but the remote PSN - rq_psn is
never set from the local PSN. -/
theorem qp_psn_attribute_binding (envS envC : SetupEnv) (pn : Nat) (cS cC : ConnInfo)
    (hS : (server_setup_qp_with_psn envS cS).ret = 0)
    (hC : (client_setup_qp_with_psn envC pn cC).ret = 0) :
    ((∀ m ∈ (server_setup_qp_with_psn envS cS).modifies,
       (m.flags &&& IBV_QP_RQ_PSN ≠ 0 → m.attr.rq_psn = cS.remote_psn) ∧
       (m.flags &&& IBV_QP_SQ_PSN ≠ 0 → m.attr.sq_psn = cS.local_psn)) ∧
     (∃ m ∈ (server_setup_qp_with_psn envS cS).modifies,
       m.attr.qp_state = IBV_QPS_RTR ∧ m.flags &&& IBV_QP_RQ_PSN ≠ 0 ∧
       m.attr.rq_psn = cS.remote_psn) ∧
     (∃ m ∈ (server_setup_qp_with_psn envS cS).modifies,
       m.attr.qp_state = IBV_QPS_RTS ∧ m.flags &&& IBV_QP_SQ_PSN ≠ 0 ∧
       m.attr.sq_psn = cS.local_psn)) ∧
    ((∀ m ∈ (client_setup_qp_with_psn envC pn cC).modifies,
       (m.flags &&& IBV_QP_RQ_PSN ≠ 0 → m.attr.rq_psn = cC.remote_psn) ∧
       (m.flags &&& IBV_QP_SQ_PSN ≠ 0 → m.attr.sq_psn = cC.local_psn)) ∧
     (∃ m ∈ (client_setup_qp_with_psn envC pn cC).modifies,
       m.attr.qp_state = IBV_QPS_RTR ∧ m.flags &&& IBV_QP_RQ_PSN ≠ 0 ∧
       m.attr.rq_psn = cC.remote_psn) ∧
     (∃ m ∈ (client_setup_qp_with_psn envC pn cC).modifies,
       m.attr.qp_state = IBV_QPS_RTS ∧ m.flags &&& IBV_QP_SQ_PSN ≠ 0 ∧
       m.attr.sq_psn = cC.local_psn)) := by
  obtain ⟨rS, hrS, hmS⟩ := server_setup_success_modifies envS cS hS
  obtain ⟨rC, hrC, hmC⟩ := client_setup_success_modifies envC pn cC hC
  rw [hmS, hmC]
  exact ⟨modifies_list_psn_spec cS rS envS.link_layer 1,
    modifies_list_psn_spec cC rC envC.link_layer pn⟩

/-- Witness for C1: a concrete successful bring-up on both sides. -/
theorem qp_psn_attribute_binding_witness :
    (server_setup_qp_with_psn demo_setup_env demo_conn).ret = 0 ∧
    (client_setup_qp_with_psn demo_setup_env 1 demo_conn).ret = 0 ∧
    (∃ m ∈ (server_setup_qp_with_psn demo_setup_env demo_conn).modifies,
      m.attr.qp_state = IBV_QPS_RTR ∧ m.flags &&& IBV_QP_RQ_PSN ≠ 0 ∧
      m.attr.rq_psn = demo_conn.remote_psn) ∧
    (∃ m ∈ (client_setup_qp_with_psn demo_setup_env 1 demo_conn).modifies,
      m.attr.qp_state = IBV_QPS_RTS ∧ m.flags &&& IBV_QP_SQ_PSN ≠ 0 ∧
      m.attr.sq_psn = demo_conn.local_psn) := by
  have h := qp_psn_attribute_binding demo_setup_env demo_setup_env 1 demo_conn demo_conn
    (by decide) (by decide)
  exact ⟨by decide, by decide, h.1.2.1, h.2.2.2⟩

/-! ### Slot-table lemmas -/

theorem countP_set_balance {α : Type} (p : α → Bool) (l : List α) (i : Nat) (v x : α)
    (hx : l.get? i = some x) :
    (l.set i v).countP p + (if p x then 1 else 0) =
      l.countP p + (if p v then 1 else 0) := by
  induction l generalizing i with
  | nil => simp at hx
  | cons a t ih =>
    cases i with
    | zero =>
      simp only [List.get?] at hx
      obtain rfl : a = x := by injection hx
      simp only [List.set, List.countP_cons]
      by_cases hpa : p a <;> by_cases hpv : p v <;> simp [hpa, hpv]
    | succ n =>
      simp only [List.get?] at hx
      have hrec := ih n hx
      simp only [List.set, List.countP_cons]
      by_cases hpa : p a <;> simp [hpa] <;> omega

theorem countP_isSome_replicate_none (n : Nat) :
    (List.replicate n (none : Option ClientRec)).countP (fun o => o.isSome) = 0 := by
  induction n with
  | zero => rfl
  | succ k ih => simp [List.replicate, List.countP_cons, ih]

theorem inv_initial (max : Nat) : ServerInv max (initialServerState max) := by
  refine ⟨by simp [initialServerState], ?_, ?_⟩ <;>
    simp [initialServerState, occupied_count, countP_isSome_replicate_none]

theorem inv_admission (max : Nat) (st : ServerState) (h : ServerInv max st) :
    ServerInv max (tls_admission max st).1 := by
  obtain ⟨hlen, hnum, hle⟩ := h
  unfold tls_admission
  by_cases hfull : st.num_clients ≥ max
  · rw [if_pos hfull]
    exact ⟨hlen, hnum, hle⟩
  · rw [if_neg hfull]
    cases hfind : st.clients.findIdx? (fun o => o.isNone) with
    | none => exact ⟨hlen, hnum, hle⟩
    | some i =>
      rw [List.findIdx?_eq_some_iff_findIdx_eq] at hfind
      obtain ⟨hilt, hidx⟩ := hfind
      subst hidx
      have hnone : st.clients[st.clients.findIdx fun o => o.isNone].isNone :=
        List.findIdx_getElem (w := hilt)
      rw [Option.isNone_iff_eq_none] at hnone
      have hget : st.clients.get? (st.clients.findIdx fun o => o.isNone) = some none := by
        rw [List.get?_eq_getElem?, List.getElem?_eq_getElem hilt, hnone]
      have hbal := countP_set_balance (fun o => o.isSome) st.clients
        (st.clients.findIdx fun o => o.isNone)
        (some { client_id := (st.clients.findIdx fun o => o.isNone) + 1,
                messages_received := 0, bytes_received := 0 }) none hget
      simp only [Option.isSome_none, Option.isSome_some, if_false, if_true,
        Bool.false_eq_true] at hbal
      refine ⟨by simpa [List.length_set] using hlen, ?_, ?_⟩ <;>
        simp only [occupied_count] at * <;> omega

theorem inv_release (max : Nat) (st : ServerState) (i : Nat) (h : ServerInv max st) :
    ServerInv max (release_slot st i) := by
  obtain ⟨hlen, hnum, hle⟩ := h
  unfold release_slot
  cases hget : st.clients.get? i with
  | none => exact ⟨hlen, hnum, hle⟩
  | some o =>
    cases o with
    | none => exact ⟨hlen, hnum, hle⟩
    | some r =>
      have hbal := countP_set_balance (fun o => o.isSome) st.clients i
        (none : Option ClientRec) (some r) hget
      simp only [Option.isSome_none, Option.isSome_some, if_false, if_true,
        Bool.false_eq_true] at hbal
      refine ⟨by simpa [List.length_set] using hlen, ?_, ?_⟩ <;>
        simp only [occupied_count] at * <;> omega

theorem inv_bump (max : Nat) (st : ServerState) (i bytes : Nat) (h : ServerInv max st) :
    ServerInv max (bump_counters st i bytes) := by
  obtain ⟨hlen, hnum, hle⟩ := h
  unfold bump_counters
  cases hget : st.clients.get? i with
  | none => exact ⟨hlen, hnum, hle⟩
  | some o =>
    cases o with
    | none => exact ⟨hlen, hnum, hle⟩
    | some r =>
      have hbal := countP_set_balance (fun o => o.isSome) st.clients i
        (some { r with messages_received := r.messages_received + 1,
                       bytes_received := r.bytes_received + bytes }) (some r) hget
      simp only [Option.isSome_some, if_true] at hbal
      refine ⟨by simpa [List.length_set] using hlen, ?_, ?_⟩ <;>
        simp only [occupied_count] at * <;> omega

theorem reachable_inv {max : Nat} {st : ServerState} (h : Reachable max st) :
    ServerInv max st := by
  induction h with
  | init => exact inv_initial max
  | admission hr ih => exact inv_admission max _ ih
  | release i hr ih => exact inv_release max _ i ih
  | bump i bytes hr ih => exact inv_bump max _ i bytes ih

/-- Claim C9: in every reachable slot-table state the number of live slots
never exceeds max_clients, and when num_clients has reached max_clients
the next admission attempt is rejected with its TLS session closed and
the state - slot array and all per-connection counters - left completely
unchanged. -/
theorem slot_table_capacity (max : Nat) (st : ServerState) (h : Reachable max st) :
    occupied_count st ≤ max ∧
    st.num_clients ≤ max ∧
    (st.num_clients ≥ max → tls_admission max st = (st, true)) := by
  obtain ⟨hlen, hnum, hle⟩ := reachable_inv h
  refine ⟨hle, by omega, ?_⟩
  intro hfull
  unfold tls_admission
  rw [if_pos hfull]

/-- Witness for C9: with max_clients = 1, after one admission the table is
full, the invariant holds and the next admission is rejected leaving the
state untouched. -/
theorem slot_table_capacity_witness :
    occupied_count (tls_admission 1 (initialServerState 1)).1 ≤ 1 ∧
    (tls_admission 1 (initialServerState 1)).1.num_clients ≥ 1 ∧
    tls_admission 1 (tls_admission 1 (initialServerState 1)).1 =
      ((tls_admission 1 (initialServerState 1)).1, true) := by
  have h := slot_table_capacity 1 (tls_admission 1 (initialServerState 1)).1
    (Reachable.admission Reachable.init)
  exact ⟨h.1, by decide, h.2.2 (by decide)⟩

end RdmaBroker
